import Mathlib

/-!
Shallow embedding of the prasmussen/tiny-http connection-lifecycle layer
(src/common.rs, src/util/refined_tcp_stream.rs, src/lib.rs).

Rust `&str` values are modelled as `List Char` (Unicode scalar values).
Every operation used by the code compares, trims or validates characters in a
way that is extensionally equal to the byte-level operation on the UTF-8
encoding: an ASCII character occupies exactly one byte below 0x80, and any
non-ASCII character contributes only bytes at or above 0x80, so byte-wise
ASCII tests and ASCII-case-folding comparisons agree with their char-wise
counterparts.
-/

set_option maxHeartbeats 1000000

namespace TinyHttp

/-- Rust `char::is_whitespace`: membership in the Unicode White_Space set
(the set used by `str::trim` in the Rust version this code targets). -/
def rustIsWhitespace (c : Char) : Bool :=
  let n := c.toNat
  (0x09 ≤ n && n ≤ 0x0D) || n == 0x20 || n == 0x85 || n == 0xA0 || n == 0x1680 ||
  (0x2000 ≤ n && n ≤ 0x200A) || n == 0x2028 || n == 0x2029 || n == 0x202F ||
  n == 0x205F || n == 0x3000

/-- Rust `str::trim_left` (drop leading whitespace). -/
def ltrim (s : List Char) : List Char := s.dropWhile rustIsWhitespace

/-- Rust `str::trim_right` (drop trailing whitespace). -/
def rtrim (s : List Char) : List Char := (s.reverse.dropWhile rustIsWhitespace).reverse

/-- Rust `str::trim`: drop leading and trailing whitespace. -/
def trim (s : List Char) : List Char := rtrim (ltrim s)

/-- A char is ASCII iff its code point is below 0x80; on the UTF-8 encoding this
is "every byte of the character is below 0x80". -/
def isAsciiChar (c : Char) : Bool := c.toNat < 0x80

/-- Rust `str::to_ascii_opt` (old-Rust `AsciiCast`): `some` of the characters when all
are ASCII, `none` if any byte is outside the ASCII range. -/
def toAsciiOpt (s : List Char) : Option (List Char) :=
  if s.all isAsciiChar then some s else none

/-- Split a list at the first occurrence of `sep`: `some (before, after)` when
`sep` occurs, `none` otherwise. Helper for `splitn`. -/
def splitOnce (sep : Char) : List Char → Option (List Char × List Char)
  | [] => none
  | c :: cs =>
    if c = sep then some ([], cs)
    else (splitOnce sep cs).map fun p => (c :: p.1, p.2)

/-- Old-Rust `str::splitn(sep, count)`: the substrings separated by `sep`,
restricted to splitting at most `count` times (so at most `count + 1` pieces);
the final piece keeps any remaining separators. -/
def splitn (sep : Char) : Nat → List Char → List (List Char)
  | 0, s => [s]
  | n + 1, s =>
    match splitOnce sep s with
    | none => [s]
    | some (pre, post) => pre :: splitn sep n post

/-- Rust `Ascii::to_lowercase` / `u8::to_ascii_lower`: fold `A`-`Z` to `a`-`z`,
leave every other code point unchanged. -/
def asciiLower (c : Char) : Char :=
  if 0x41 ≤ c.toNat && c.toNat ≤ 0x5A then Char.ofNat (c.toNat + 0x20) else c

/-- Rust `[Ascii]::eq_ignore_case` and `str::eq_ignore_ascii_case`: equal lengths and
pairwise equality after ASCII-lowercasing each element. -/
def eqIgnoreAsciiCase (a b : List Char) : Bool :=
  a.length == b.length && (a.zip b).all fun p => asciiLower p.1 == asciiLower p.2

/-- Rust `HeaderField` in common.rs: a `Vec<Ascii>`. -/
structure HeaderField where
  chars : List Char
deriving DecidableEq, Repr

/-- Rust `HeaderField::from_str`: `s.trim().to_ascii_opt().map(HeaderField)`. -/
def HeaderField.from_str (s : List Char) : Option HeaderField :=
  (toAsciiOpt (trim s)).map HeaderField.mk

/-- Rust `PartialEq for HeaderField`: `self.as_str().eq_ignore_case(other.as_str())`. -/
def HeaderField.eqField (a b : HeaderField) : Bool :=
  eqIgnoreAsciiCase a.chars b.chars

/-- Rust `Equiv<S> for HeaderField`: `other.eq_ignore_ascii_case(self)`. -/
def HeaderField.equiv (a : HeaderField) (other : List Char) : Bool :=
  eqIgnoreAsciiCase other a.chars

/-- Rust `Method` in common.rs: a `Vec<Ascii>`. -/
structure Method where
  chars : List Char
deriving DecidableEq, Repr

/-- Rust `Method::from_str`: `s.to_ascii_opt().map(Method)` (no trimming). -/
def Method.from_str (s : List Char) : Option Method :=
  (toAsciiOpt s).map Method.mk

/-- Rust `PartialEq for Method`: `self.as_str().eq_ignore_case(other.as_str())`. -/
def Method.eqMethod (a b : Method) : Bool :=
  eqIgnoreAsciiCase a.chars b.chars

/-- Rust `Equiv<S> for Method`: `other.eq_ignore_ascii_case(self)`. -/
def Method.equiv (a : Method) (other : List Char) : Bool :=
  eqIgnoreAsciiCase other a.chars

/-- Rust `Header` in common.rs: a header field together with its textual value. -/
structure Header where
  field : HeaderField
  value : List Char
deriving DecidableEq, Repr

/-- Rust `Header::from_str`: split the input with `splitn(':', 2)`; fail when at
most one piece results; otherwise parse the trimmed first piece as a
`HeaderField` and take the trimmed second piece as the value. -/
def Header.from_str (input : List Char) : Option Header :=
  let elems := splitn ':' 2 input
  if elems.length ≤ 1 then none
  else
    match HeaderField.from_str (trim (elems.getD 0 [])) with
    | none => none
    | some f => some { field := f, value := trim (elems.getD 1 []) }

/-- Rust `StatusCode::get_default_reason_phrase`: the literal match in common.rs,
rendered as the equivalent sequential comparison chain. -/
def get_default_reason_phrase (n : Nat) : String :=
  if n = 100 then "Continue"
  else if n = 101 then "Switching Protocols"
  else if n = 102 then "Processing"
  else if n = 118 then "Connection timed out"
  else if n = 200 then "OK"
  else if n = 201 then "Created"
  else if n = 202 then "Accepted"
  else if n = 203 then "Non-Authoritative Information"
  else if n = 204 then "No Content"
  else if n = 205 then "Reset Content"
  else if n = 206 then "Partial Content"
  else if n = 207 then "Multi-Status"
  else if n = 210 then "Content Different"
  else if n = 300 then "Multiple Choices"
  else if n = 301 then "Moved Permanently"
  else if n = 302 then "Found"
  else if n = 303 then "See Other"
  else if n = 304 then "Not Modified"
  else if n = 305 then "Use Proxy"
  else if n = 307 then "Temporary Redirect"
  else if n = 400 then "Bad Request"
  else if n = 401 then "Unauthorized"
  else if n = 402 then "Payment Required"
  else if n = 403 then "Forbidden"
  else if n = 404 then "Not Found"
  else if n = 405 then "Method Not Allowed"
  else if n = 406 then "Not Acceptable"
  else if n = 407 then "Proxy Authentication Required"
  else if n = 408 then "Request Time-out"
  else if n = 409 then "Conflict"
  else if n = 410 then "Gone"
  else if n = 411 then "Length Required"
  else if n = 412 then "Precondition Failed"
  else if n = 413 then "Request Entity Too Large"
  else if n = 414 then "Reques-URI Too Large"
  else if n = 415 then "Unsupported Media Type"
  else if n = 416 then "Request range not satisfiable"
  else if n = 417 then "Expectation Failed"
  else if n = 500 then "Internal Server Error"
  else if n = 501 then "Not Implemented"
  else if n = 502 then "Bad Gateway"
  else if n = 503 then "Service Unavailable"
  else if n = 504 then "Gateway Time-out"
  else if n = 505 then "HTTP Version not supported"
  else "Unknown"

/-- The reason-phrase table exactly as the spec documents it, pairing each
listed status code with its phrase. -/
def reasonTable : List (Nat × String) :=
  [(100, "Continue"), (101, "Switching Protocols"), (102, "Processing"),
   (118, "Connection timed out"), (200, "OK"), (201, "Created"),
   (202, "Accepted"), (203, "Non-Authoritative Information"),
   (204, "No Content"), (205, "Reset Content"), (206, "Partial Content"),
   (207, "Multi-Status"), (210, "Content Different"),
   (300, "Multiple Choices"), (301, "Moved Permanently"), (302, "Found"),
   (303, "See Other"), (304, "Not Modified"), (305, "Use Proxy"),
   (307, "Temporary Redirect"), (400, "Bad Request"), (401, "Unauthorized"),
   (402, "Payment Required"), (403, "Forbidden"), (404, "Not Found"),
   (405, "Method Not Allowed"), (406, "Not Acceptable"),
   (407, "Proxy Authentication Required"), (408, "Request Time-out"),
   (409, "Conflict"), (410, "Gone"), (411, "Length Required"),
   (412, "Precondition Failed"), (413, "Request Entity Too Large"),
   (414, "Reques-URI Too Large"), (415, "Unsupported Media Type"),
   (416, "Request range not satisfiable"), (417, "Expectation Failed"),
   (500, "Internal Server Error"), (501, "Not Implemented"),
   (502, "Bad Gateway"), (503, "Service Unavailable"),
   (504, "Gateway Time-out"), (505, "HTTP Version not supported")]

/-! ## util/refined_tcp_stream.rs -/

/-- Rust `std::net::TcpStream`, abstracted to the identity of the underlying
bidirectional connection it is a handle to (`try_clone` yields a second handle
to the same connection). -/
structure TcpStream where
  conn : Nat
deriving DecidableEq, Repr

/-- Rust `std::io::Error`, abstracted to a bare error code. -/
structure IoError where
  code : Nat
deriving DecidableEq, Repr

/-- The `Stream` tagged union of refined_tcp_stream.rs (single `Http` variant). -/
inductive Stream
  | Http : TcpStream → Stream
deriving DecidableEq, Repr

/-- The connection identity a `Stream` is a handle to. -/
def Stream.connOf : Stream → Nat
  | Stream.Http t => t.conn

/-- Rust `RefinedTcpStream`: a stream plus the two close-responsibility markers. -/
structure RefinedTcpStream where
  stream : Stream
  close_read : Bool
  close_write : Bool
deriving DecidableEq, Repr

/-- Rust `RefinedTcpStream::new`: duplicate the handle for the read half (the
`tryClone` argument models `TcpStream::try_clone`, an environment-supplied
operation that may fail); the read half carries `close_read`, the original
handle becomes the write half carrying `close_write`. The `.unwrap()` on a
failed clone panics, modelled as `none`. -/
def RefinedTcpStream.new (tryClone : TcpStream → Except IoError TcpStream)
    (stream : Stream) : Option (RefinedTcpStream × RefinedTcpStream) :=
  match stream with
  | Stream.Http s =>
    match tryClone s with
    | Except.error _ => none
    | Except.ok c =>
      some ({ stream := Stream.Http c, close_read := true, close_write := false },
            { stream := Stream.Http s, close_read := false, close_write := true })

/-- Rust `std::net::Shutdown`. -/
inductive ShutdownDir
  | read
  | write
  | both
deriving DecidableEq, Repr

/-- The `Drop` impl of `RefinedTcpStream`: call `shutdown(Read)` when
`close_read` is set, then `shutdown(Write)` when `close_write` is set, each
followed by `.ok()` which discards the outcome. `shutdownPrim` models the
environment's `TcpStream::shutdown`, which may fail; the run is recorded as
the list of calls made, paired with their (discarded) outcomes. The Rust
function returns `()`: no outcome escapes it. -/
def RefinedTcpStream.dropRun
    (shutdownPrim : Stream → ShutdownDir → Except IoError Unit)
    (s : RefinedTcpStream) : List (ShutdownDir × Except IoError Unit) :=
  (if s.close_read then [(ShutdownDir.read, shutdownPrim s.stream ShutdownDir.read)]
   else []) ++
  (if s.close_write then [(ShutdownDir.write, shutdownPrim s.stream ShutdownDir.write)]
   else [])

/-! ## lib.rs -/

/-- Rust `AcceptError` in lib.rs. -/
inductive AcceptError
  | Accept : IoError → AcceptError
  | ShuttingDown : AcceptError
deriving DecidableEq, Repr

/-- Rust `ShutdownError` in lib.rs. -/
inductive ShutdownError
  | LocalAddr : IoError → ShutdownError
  | Connect : IoError → ShutdownError
  | Shutdown : IoError → ShutdownError
deriving DecidableEq, Repr

/-- Modelled from the spec: `ClientConnection` lives in src/client.rs, which is
not among the sources. The spec says `accept` "splits the new connection into
read/write halves and returns them together as one connection object", so the
connection object is the record of the two halves; `ClientConnection::new` is
called as `new(write_closable, read_closable)` in lib.rs, so `new` takes the
write half first. -/
structure ClientConnection where
  writeHalf : RefinedTcpStream
  readHalf : RefinedTcpStream
deriving DecidableEq, Repr

/-- Modelled from the spec: constructor order matches the call site in lib.rs. -/
def ClientConnection.new (write_closable read_closable : RefinedTcpStream) :
    ClientConnection :=
  { writeHalf := write_closable, readHalf := read_closable }

/-- The store of shared `AtomicBool` shutdown-flag cells, indexed by cell
identity; an `Arc<AtomicBool>` is modelled as the index of its cell, so that
clones of the `Arc` are exactly the servers holding the same index. -/
def Flags := Nat → Bool

/-- Rust `Server`: a listening socket (abstracted to an identity) and the shared
shutdown flag (the identity of its cell). -/
structure Server where
  listener : Nat
  is_shutting_down : Nat
deriving DecidableEq, Repr

/-- Rust `err_if_false` in lib.rs. -/
def err_if_false {E : Type} (value : Bool) (err : E) : Except E Unit :=
  if value then Except.ok () else Except.error err

/-- Rust `Server::try_clone`: duplicate the listening handle (`cloneListener` models
`TcpListener::try_clone`), share the same flag cell. -/
def Server.try_clone (cloneListener : Nat → Except IoError Nat) (s : Server) :
    Except IoError Server :=
  match cloneListener s.listener with
  | Except.error e => Except.error e
  | Except.ok l => Except.ok { listener := l, is_shutting_down := s.is_shutting_down }

/-- Rust `Server::accept`: fail with `ShuttingDown` when the shared flag is set;
otherwise consult the underlying accept primitive (`acceptPrim` models the
outcome of `TcpListener::accept`, whose address component lib.rs discards):
propagate its failure wrapped in `AcceptError::Accept`, or split the accepted
socket with `RefinedTcpStream::new` and return both halves as one
`ClientConnection`. The outer `Option` is `none` exactly when the `.unwrap()`
inside `RefinedTcpStream::new` panics. -/
def Server.accept (flags : Flags) (s : Server)
    (acceptPrim : Except IoError TcpStream)
    (tryClone : TcpStream → Except IoError TcpStream) :
    Option (Except AcceptError ClientConnection) :=
  match err_if_false (!(flags s.is_shutting_down)) AcceptError.ShuttingDown with
  | Except.error e => some (Except.error e)
  | Except.ok _ =>
    match acceptPrim with
    | Except.error e => some (Except.error (AcceptError.Accept e))
    | Except.ok socket =>
      match RefinedTcpStream.new tryClone (Stream.Http socket) with
      | none => none
      | some (read_closable, write_closable) =>
        some (Except.ok (ClientConnection.new write_closable read_closable))

/-- Rust `Server::shutdown`: store `true` into the shared flag cell first, then try
to look up the local address (`localAddrRes`), self-connect (`connectRes`) and
close that throwaway connection (`shutdownPrim`), propagating the first failure
wrapped in the corresponding `ShutdownError` variant. Returns the updated flag
store together with the call's result; the store happens before any failure
point. -/
def Server.shutdown (flags : Flags) (s : Server)
    (localAddrRes : Except IoError Nat)
    (connectRes : Nat → Except IoError TcpStream)
    (shutdownPrim : TcpStream → Except IoError Unit) :
    Flags × Except ShutdownError Unit :=
  let flags2 : Flags := fun i => if i = s.is_shutting_down then true else flags i
  (flags2,
    match localAddrRes with
    | Except.error e => Except.error (ShutdownError.LocalAddr e)
    | Except.ok addr =>
      match connectRes addr with
      | Except.error e => Except.error (ShutdownError.Connect e)
      | Except.ok stream =>
        match shutdownPrim stream with
        | Except.error e => Except.error (ShutdownError.Shutdown e)
        | Except.ok _ => Except.ok ())

/-- Spec-side reading used by claim C1: "the value is all text after that
first colon, trimmed", regardless of any further colons. -/
def specValueAfterFirstColon (s : List Char) : Option (List Char) :=
  (splitOnce ':' s).map fun p => trim p.2

/-! ## Helper lemmas -/

theorem dropWhile_idem {α : Type} (p : α → Bool) (l : List α) :
    (l.dropWhile p).dropWhile p = l.dropWhile p := by
  induction l with
  | nil => simp
  | cons a l ih =>
    by_cases h : p a
    · simp [List.dropWhile_cons, h, ih]
    · simp [List.dropWhile_cons, h]

theorem dropWhile_append_last {α : Type} {p : α → Bool} {a : α}
    (h : p a = false) (xs : List α) :
    (xs ++ [a]).dropWhile p = xs.dropWhile p ++ [a] := by
  induction xs with
  | nil => simp [List.dropWhile_cons, h]
  | cons b t ih =>
    by_cases hb : p b
    · simp [List.dropWhile_cons, hb, ih]
    · simp [List.dropWhile_cons, hb]

/-- If a list is already left-trimmed, right-trimming keeps it left-trimmed. -/
theorem dropWhile_reverse_dropWhile {α : Type} (p : α → Bool) (m : List α)
    (hm : m.dropWhile p = m) :
    ((m.reverse.dropWhile p).reverse).dropWhile p =
      (m.reverse.dropWhile p).reverse := by
  cases m with
  | nil => simp
  | cons a t =>
    have ha : p a = false := by
      cases hpa : p a with
      | false => rfl
      | true =>
        have h2 := hm
        rw [List.dropWhile_cons_of_pos hpa] at h2
        have hlen := congrArg List.length h2
        have hle := (List.dropWhile_sublist (l := t) p).length_le
        simp at hlen
        omega
    rw [List.reverse_cons, dropWhile_append_last ha, List.reverse_append]
    simp [List.dropWhile_cons, ha]

theorem ltrim_idem (s : List Char) : ltrim (ltrim s) = ltrim s :=
  dropWhile_idem rustIsWhitespace s

theorem rtrim_idem (s : List Char) : rtrim (rtrim s) = rtrim s := by
  unfold rtrim
  rw [List.reverse_reverse, dropWhile_idem]

theorem ltrim_rtrim_ltrim (s : List Char) :
    ltrim (rtrim (ltrim s)) = rtrim (ltrim s) :=
  dropWhile_reverse_dropWhile rustIsWhitespace (ltrim s)
    (dropWhile_idem rustIsWhitespace s)

theorem trim_idem (s : List Char) : trim (trim s) = trim s := by
  unfold trim
  rw [ltrim_rtrim_ltrim, rtrim_idem]

theorem splitOnce_eq_none (sep : Char) (s : List Char) :
    splitOnce sep s = none ↔ sep ∉ s := by
  induction s with
  | nil => simp [splitOnce]
  | cons c cs ih =>
    by_cases h : c = sep
    · subst h
      simp [splitOnce]
    · simp [splitOnce, h, Option.map_eq_none', ih, List.mem_cons]
      intro hcs
      exact fun hsc => h hsc.symm

theorem splitOnce_eq_some (sep : Char) (s : List Char) (h : sep ∈ s) :
    splitOnce sep s =
      some (s.takeWhile (· != sep), (s.dropWhile (· != sep)).tail) := by
  induction s with
  | nil => cases h
  | cons c cs ih =>
    by_cases hc : c = sep
    · subst hc
      simp [splitOnce, List.takeWhile_cons, List.dropWhile_cons]
    · have hmem : sep ∈ cs := by
        rcases List.mem_cons.mp h with h1 | h1
        · exact absurd h1.symm hc
        · exact h1
      have hbc : (c != sep) = true := by simp [hc]
      simp [splitOnce, hc, ih hmem, List.takeWhile_cons, List.dropWhile_cons, hbc]

theorem takeWhile_ne_of_not_mem (sep : Char) (s : List Char) (h : sep ∉ s) :
    s.takeWhile (· != sep) = s := by
  induction s with
  | nil => rfl
  | cons c cs ih =>
    have hc : c ≠ sep := by
      intro hcs
      exact h (hcs ▸ List.mem_cons_self c cs)
    have hbc : (c != sep) = true := by simp [hc]
    rw [List.takeWhile_cons, hbc]
    simp only [if_true]
    rw [ih (fun hm => h (List.mem_cons_of_mem c hm))]

theorem eqIgnoreAsciiCase_iff (a b : List Char) :
    eqIgnoreAsciiCase a b = true ↔ a.map asciiLower = b.map asciiLower := by
  induction a generalizing b with
  | nil => cases b <;> simp [eqIgnoreAsciiCase]
  | cons x xs ih =>
    cases b with
    | nil => simp [eqIgnoreAsciiCase]
    | cons y ys =>
      have hstep : eqIgnoreAsciiCase (x :: xs) (y :: ys) = true ↔
          (asciiLower x = asciiLower y ∧ eqIgnoreAsciiCase xs ys = true) := by
        simp [eqIgnoreAsciiCase, and_assoc, and_left_comm]
      rw [hstep, ih ys]
      simp [List.map_cons]

theorem splitn_succ (sep : Char) (n : Nat) (s : List Char) :
    splitn sep (n + 1) s =
      match splitOnce sep s with
      | none => [s]
      | some (pre, post) => pre :: splitn sep n post := rfl

/-- Shape of `splitn(':', 2)` when the input contains a colon: at least two
pieces; the first piece is the text before the first colon; the second piece is
the text after the first colon up to the next colon (or to the end). -/
theorem splitn_two_shape (s : List Char) (h : ':' ∈ s) :
    2 ≤ (splitn ':' 2 s).length ∧
    (splitn ':' 2 s).getD 0 [] = s.takeWhile (· != ':') ∧
    (splitn ':' 2 s).getD 1 [] =
      ((s.dropWhile (· != ':')).tail).takeWhile (· != ':') := by
  have h0 : splitn ':' 2 s =
      s.takeWhile (· != ':') :: splitn ':' 1 ((s.dropWhile (· != ':')).tail) := by
    show (match splitOnce ':' s with
          | none => [s]
          | some (pre, post) => pre :: splitn ':' 1 post) = _
    rw [splitOnce_eq_some ':' s h]
  by_cases hp : ':' ∈ (s.dropWhile (· != ':')).tail
  · have h1 : splitn ':' 1 ((s.dropWhile (· != ':')).tail) =
        [((s.dropWhile (· != ':')).tail).takeWhile (· != ':'),
         (((s.dropWhile (· != ':')).tail).dropWhile (· != ':')).tail] := by
      show (match splitOnce ':' ((s.dropWhile (· != ':')).tail) with
            | none => [(s.dropWhile (· != ':')).tail]
            | some (pre, post) => pre :: splitn ':' 0 post) = _
      rw [splitOnce_eq_some ':' _ hp]
      rfl
    rw [h0, h1]
    exact ⟨by simp, rfl, rfl⟩
  · have h1 : splitn ':' 1 ((s.dropWhile (· != ':')).tail) =
        [(s.dropWhile (· != ':')).tail] := by
      show (match splitOnce ':' ((s.dropWhile (· != ':')).tail) with
            | none => [(s.dropWhile (· != ':')).tail]
            | some (pre, post) => pre :: splitn ':' 0 post) = _
      rw [(splitOnce_eq_none ':' _).mpr hp]
    rw [h0, h1]
    exact ⟨by simp, rfl, (takeWhile_ne_of_not_mem ':' _ hp).symm⟩

theorem splitn_two_of_not_mem (s : List Char) (h : ':' ∉ s) :
    splitn ':' 2 s = [s] := by
  show (match splitOnce ':' s with
        | none => [s]
        | some (pre, post) => pre :: splitn ':' 1 post) = _
  rw [(splitOnce_eq_none ':' s).mpr h]

/-! ## Claim theorems -/

/-- Claim C1 counterexample: on `"a:b:c"` the header construction succeeds with
value `"b"`, but the claim's "all text after the first colon, trimmed" is
`"b:c"`; old-Rust `splitn(':', 2)` splits up to two times, so the value piece
stops at the second colon. -/
theorem c1_counterexample :
    Header.from_str "a:b:c".toList =
      some { field := { chars := ['a'] }, value := ['b'] } ∧
    specValueAfterFirstColon "a:b:c".toList = some "b:c".toList ∧
    (['b'] : List Char) ≠ "b:c".toList := by decide

/-- Claim C1 (amended): header construction succeeds exactly when the input
contains a colon and the text before the first colon, trimmed, is all-ASCII;
the field is that trimmed prefix, and the value is the text after the first
colon and before the second colon (to the end when there is no second colon),
trimmed. -/
theorem c1_header_from_str (s : List Char) :
    ((Header.from_str s).isSome = true ↔
      ':' ∈ s ∧ (trim (s.takeWhile (· != ':'))).all isAsciiChar = true) ∧
    ∀ h, Header.from_str s = some h →
      h.field.chars = trim (s.takeWhile (· != ':')) ∧
      h.value = trim (((s.dropWhile (· != ':')).tail).takeWhile (· != ':')) := by
  by_cases hmem : ':' ∈ s
  · obtain ⟨hlen, hg0, hg1⟩ := splitn_two_shape s hmem
    have hnle : ¬ (splitn ':' 2 s).length ≤ 1 := by omega
    have hform : Header.from_str s =
        match HeaderField.from_str (trim (s.takeWhile (· != ':'))) with
        | none => none
        | some f =>
          some { field := f,
                 value :=
                   trim (((s.dropWhile (· != ':')).tail).takeWhile (· != ':')) } := by
      simp only [Header.from_str]
      rw [if_neg hnle, hg0, hg1]
    have hff : HeaderField.from_str (trim (s.takeWhile (· != ':'))) =
        (toAsciiOpt (trim (s.takeWhile (· != ':')))).map HeaderField.mk := by
      unfold HeaderField.from_str
      rw [trim_idem]
    cases hall : (trim (s.takeWhile (· != ':'))).all isAsciiChar with
    | true =>
      have hsome : Header.from_str s =
          some { field := ⟨trim (s.takeWhile (· != ':'))⟩,
                 value :=
                   trim (((s.dropWhile (· != ':')).tail).takeWhile (· != ':')) } := by
        rw [hform, hff]
        simp [toAsciiOpt, hall]
      rw [hsome]
      constructor
      · simp [hmem]
      · intro h hh
        injection hh with hh
        subst hh
        exact ⟨rfl, rfl⟩
    | false =>
      have hnone : Header.from_str s = none := by
        rw [hform, hff]
        simp [toAsciiOpt, hall]
      rw [hnone]
      constructor
      · simp [hall]
      · intro h hh
        cases hh
  · have hnone : Header.from_str s = none := by
      simp [Header.from_str, splitn_two_of_not_mem s hmem]
    rw [hnone]
    constructor
    · simp [hmem]
    · intro h hh
      cases hh

/-- Claim C1 witness: the amended theorem applied to `" X : y "`. -/
theorem c1_header_from_str_witness :
    ({ field := ⟨['X']⟩, value := ['y'] } : Header).value =
      trim (((" X : y ".toList.dropWhile (· != ':')).tail).takeWhile (· != ':')) :=
  ((c1_header_from_str " X : y ".toList).2
    { field := ⟨['X']⟩, value := ['y'] } (by decide)).2

/-- Claim C2: `try_clone` shares the shutdown-flag cell, and once `shutdown`
has run on a server (regardless of whether its local-address lookup,
self-connect or close succeeded or failed), `accept` on that server or on any
server sharing its flag cell returns the `ShuttingDown` error, whatever the
underlying accept primitive would have produced. -/
theorem c2_accept_after_shutdown :
    (∀ (cl : Nat → Except IoError Nat) (s t : Server),
      Server.try_clone cl s = Except.ok t →
      t.is_shutting_down = s.is_shutting_down) ∧
    (∀ (flags : Flags) (s t : Server)
      (la : Except IoError Nat) (co : Nat → Except IoError TcpStream)
      (sh : TcpStream → Except IoError Unit)
      (ap : Except IoError TcpStream) (tc : TcpStream → Except IoError TcpStream),
      t.is_shutting_down = s.is_shutting_down →
      Server.accept (Server.shutdown flags s la co sh).1 t ap tc =
        some (Except.error AcceptError.ShuttingDown)) := by
  constructor
  · intro cl s t h
    unfold Server.try_clone at h
    cases hcl : cl s.listener with
    | error e => rw [hcl] at h; cases h
    | ok l => rw [hcl] at h; cases h; rfl
  · intro flags s t la co sh ap tc hflag
    simp [Server.accept, Server.shutdown, err_if_false, hflag]

/-- Claim C2 witness: a duplicate (flag cell 1) observes a shutdown performed
through the original (also flag cell 1), even though the original's
self-connect step failed. -/
theorem c2_accept_after_shutdown_witness :
    Server.accept
      (Server.shutdown (fun _ => false) { listener := 0, is_shutting_down := 1 }
        (Except.ok 4) (fun _ => Except.error { code := 9 })
        (fun _ => Except.ok ())).1
      { listener := 2, is_shutting_down := 1 }
      (Except.ok { conn := 5 }) (fun t => Except.ok t) =
      some (Except.error AcceptError.ShuttingDown) :=
  c2_accept_after_shutdown.2 (fun _ => false)
    { listener := 0, is_shutting_down := 1 } { listener := 2, is_shutting_down := 1 }
    (Except.ok 4) (fun _ => Except.error { code := 9 }) (fun _ => Except.ok ())
    (Except.ok { conn := 5 }) (fun t => Except.ok t) rfl

/-- Claim C3: `accept` fails with `ShuttingDown` whenever the flag is set,
independently of the underlying accept primitive's outcome; with the flag
clear it wraps an underlying failure in `AcceptError::Accept` unchanged, and
on underlying success it returns the two halves produced by
`RefinedTcpStream::new` bundled as one connection object. -/
theorem c3_accept_cases :
    ∀ (flags : Flags) (s : Server) (ap : Except IoError TcpStream)
      (tc : TcpStream → Except IoError TcpStream),
      (flags s.is_shutting_down = true →
        Server.accept flags s ap tc = some (Except.error AcceptError.ShuttingDown)) ∧
      (flags s.is_shutting_down = false → ∀ e, ap = Except.error e →
        Server.accept flags s ap tc = some (Except.error (AcceptError.Accept e))) ∧
      (flags s.is_shutting_down = false →
        ∀ socket r w, ap = Except.ok socket →
        RefinedTcpStream.new tc (Stream.Http socket) = some (r, w) →
        Server.accept flags s ap tc =
          some (Except.ok { writeHalf := w, readHalf := r })) := by
  intro flags s ap tc
  refine ⟨fun hset => ?_, fun hunset e he => ?_,
    fun hunset socket r w hap hnew => ?_⟩
  · simp [Server.accept, err_if_false, hset]
  · subst he
    simp [Server.accept, err_if_false, hunset]
  · subst hap
    simp [Server.accept, err_if_false, hunset, hnew, ClientConnection.new]

/-- Claim C3 witness: the success path at concrete inputs. -/
theorem c3_accept_cases_witness :
    Server.accept (fun _ => false) { listener := 0, is_shutting_down := 0 }
      (Except.ok { conn := 7 }) (fun t => Except.ok t) =
      some (Except.ok
        { writeHalf :=
            { stream := Stream.Http { conn := 7 }, close_read := false,
              close_write := true },
          readHalf :=
            { stream := Stream.Http { conn := 7 }, close_read := true,
              close_write := false } }) :=
  (c3_accept_cases (fun _ => false) { listener := 0, is_shutting_down := 0 }
      (Except.ok { conn := 7 }) (fun t => Except.ok t)).2.2 rfl
    { conn := 7 }
    { stream := Stream.Http { conn := 7 }, close_read := true, close_write := false }
    { stream := Stream.Http { conn := 7 }, close_read := false, close_write := true }
    rfl rfl

/-- Claim C4: whenever the split succeeds, it yields exactly the read-closing
half (close_read, not close_write) and the write-closing half (close_write,
not close_read), both handles to the same underlying connection — assuming the
environment's `try_clone` duplicates a handle to the same connection. -/
theorem c4_split_invariant
    (tryClone : TcpStream → Except IoError TcpStream)
    (hclone : ∀ a b, tryClone a = Except.ok b → b.conn = a.conn)
    (st : Stream) (r w : RefinedTcpStream)
    (h : RefinedTcpStream.new tryClone st = some (r, w)) :
    r.close_read = true ∧ r.close_write = false ∧
    w.close_read = false ∧ w.close_write = true ∧
    r.stream.connOf = w.stream.connOf := by
  cases st with
  | Http t =>
    simp only [RefinedTcpStream.new] at h
    cases htc : tryClone t with
    | error e =>
      rw [htc] at h
      cases h
    | ok c =>
      rw [htc] at h
      simp only [Option.some.injEq, Prod.mk.injEq] at h
      obtain ⟨hr, hw⟩ := h
      subst hr
      subst hw
      refine ⟨rfl, rfl, rfl, rfl, ?_⟩
      show c.conn = t.conn
      exact hclone t c htc

/-- Claim C4 witness: the invariant at a concrete stream and a succeeding
clone. -/
theorem c4_split_invariant_witness :
    ({ stream := Stream.Http { conn := 3 }, close_read := true,
       close_write := false } : RefinedTcpStream).close_read = true ∧
    ({ stream := Stream.Http { conn := 3 }, close_read := true,
       close_write := false } : RefinedTcpStream).close_write = false ∧
    ({ stream := Stream.Http { conn := 3 }, close_read := false,
       close_write := true } : RefinedTcpStream).close_read = false ∧
    ({ stream := Stream.Http { conn := 3 }, close_read := false,
       close_write := true } : RefinedTcpStream).close_write = true ∧
    ({ stream := Stream.Http { conn := 3 }, close_read := true,
       close_write := false } : RefinedTcpStream).stream.connOf =
      ({ stream := Stream.Http { conn := 3 }, close_read := false,
         close_write := true } : RefinedTcpStream).stream.connOf :=
  c4_split_invariant (fun t => Except.ok t)
    (fun a b hb => by cases hb; rfl) (Stream.Http { conn := 3 })
    { stream := Stream.Http { conn := 3 }, close_read := true, close_write := false }
    { stream := Stream.Http { conn := 3 }, close_read := false, close_write := true }
    rfl

/-- Claim C5: releasing a half shuts down the read direction iff it is marked
close_read and the write direction iff it is marked close_write, never the
whole connection at once; which directions are shut down does not depend on the
shutdown primitive's outcomes, so a failure of one call is discarded and the
other direction is still handled. -/
theorem c5_drop_closes_owned_directions :
    ∀ (prim prim2 : Stream → ShutdownDir → Except IoError Unit)
      (s : RefinedTcpStream),
      (ShutdownDir.read ∈ (RefinedTcpStream.dropRun prim s).map Prod.fst ↔
        s.close_read = true) ∧
      (ShutdownDir.write ∈ (RefinedTcpStream.dropRun prim s).map Prod.fst ↔
        s.close_write = true) ∧
      ShutdownDir.both ∉ (RefinedTcpStream.dropRun prim s).map Prod.fst ∧
      (RefinedTcpStream.dropRun prim s).map Prod.fst =
        (RefinedTcpStream.dropRun prim2 s).map Prod.fst := by
  intro prim prim2 s
  obtain ⟨st, cr, cw⟩ := s
  cases cr <;> cases cw <;> simp [RefinedTcpStream.dropRun]

/-- Claim C5 witness: the read-closing half at a concrete failing primitive. -/
theorem c5_drop_witness :
    ShutdownDir.read ∈
      (RefinedTcpStream.dropRun (fun _ _ => Except.error { code := 1 })
        { stream := Stream.Http { conn := 0 }, close_read := true,
          close_write := false }).map Prod.fst ↔
      ({ stream := Stream.Http { conn := 0 }, close_read := true,
         close_write := false } : RefinedTcpStream).close_read = true :=
  (c5_drop_closes_owned_directions (fun _ _ => Except.error { code := 1 })
    (fun _ _ => Except.ok ())
    { stream := Stream.Http { conn := 0 }, close_read := true,
      close_write := false }).1

/-- Claim C6: the default-reason-phrase lookup returns the listed phrase for
every status code in the documented table, and the literal `"Unknown"` for
every integer not listed. -/
theorem c6_reason_phrase :
    (∀ p ∈ reasonTable, get_default_reason_phrase p.1 = p.2) ∧
    ∀ n : Nat, n ∉ reasonTable.map Prod.fst →
      get_default_reason_phrase n = "Unknown" := by
  constructor
  · decide
  · intro n hn
    simp only [reasonTable, List.map_cons, List.map_nil, List.mem_cons,
      List.not_mem_nil, or_false] at hn
    push_neg at hn
    obtain ⟨h1, h2, h3, h4, h5, h6, h7, h8, h9, h10, h11, h12, h13, h14, h15,
      h16, h17, h18, h19, h20, h21, h22, h23, h24, h25, h26, h27, h28, h29,
      h30, h31, h32, h33, h34, h35, h36, h37, h38, h39, h40, h41, h42, h43,
      h44⟩ := hn
    unfold get_default_reason_phrase
    rw [if_neg h1, if_neg h2, if_neg h3, if_neg h4, if_neg h5, if_neg h6]
    rw [if_neg h7, if_neg h8, if_neg h9, if_neg h10, if_neg h11, if_neg h12]
    rw [if_neg h13, if_neg h14, if_neg h15, if_neg h16, if_neg h17, if_neg h18]
    rw [if_neg h19, if_neg h20, if_neg h21, if_neg h22, if_neg h23, if_neg h24]
    rw [if_neg h25, if_neg h26, if_neg h27, if_neg h28, if_neg h29, if_neg h30]
    rw [if_neg h31, if_neg h32, if_neg h33, if_neg h34, if_neg h35, if_neg h36]
    rw [if_neg h37, if_neg h38, if_neg h39, if_neg h40, if_neg h41, if_neg h42]
    rw [if_neg h43, if_neg h44]

/-- Claim C6 witness: an unlisted code maps to `"Unknown"`. -/
theorem c6_reason_phrase_witness : get_default_reason_phrase 123 = "Unknown" :=
  c6_reason_phrase.2 123 (by decide)

/-- Claim C7 counterexample: the input `"a "` (U+00A0 NO-BREAK SPACE,
UTF-8 bytes 0xC2 0xA0, both outside ASCII) is not all-ASCII, yet
`HeaderField::from_str` produces a token, because it trims Unicode whitespace
before validating. -/
theorem c7_counterexample :
    ("a ".toList.all isAsciiChar = false) ∧
    HeaderField.from_str "a ".toList = some ⟨['a']⟩ := by decide

/-- Claim C7 (amended): `Method::from_str` produces no value exactly when the
input is not all-ASCII; `HeaderField::from_str` produces no value exactly when
the input is not all-ASCII after trimming surrounding (Unicode) whitespace. -/
theorem c7_token_construction (s : List Char) :
    (Method.from_str s = none ↔ s.all isAsciiChar = false) ∧
    (HeaderField.from_str s = none ↔ (trim s).all isAsciiChar = false) := by
  constructor
  · cases h : s.all isAsciiChar <;> simp [Method.from_str, toAsciiOpt, h]
  · cases h : (trim s).all isAsciiChar <;>
      simp [HeaderField.from_str, toAsciiOpt, h]

/-- Claim C7 witness: the amended theorem at a concrete non-ASCII input. -/
theorem c7_token_construction_witness :
    Method.from_str "é".toList = none ↔ "é".toList.all isAsciiChar = false :=
  (c7_token_construction "é".toList).1

/-- Claim C8: token equality (Method and HeaderField) holds exactly when the
character sequences agree after ASCII-case folding; equivalence to a plain
string is the same case-insensitive comparison; in particular the tokens
parsed from "GET" and "get" are equal and each is equivalent to "get". -/
theorem c8_token_equality :
    (∀ a b : Method, Method.eqMethod a b = true ↔
      a.chars.map asciiLower = b.chars.map asciiLower) ∧
    (∀ a b : HeaderField, HeaderField.eqField a b = true ↔
      a.chars.map asciiLower = b.chars.map asciiLower) ∧
    (∀ (a : Method) (s : List Char), Method.equiv a s = true ↔
      s.map asciiLower = a.chars.map asciiLower) ∧
    (∀ (a : HeaderField) (s : List Char), HeaderField.equiv a s = true ↔
      s.map asciiLower = a.chars.map asciiLower) ∧
    (∀ g₁ g₂ : Method, Method.from_str "GET".toList = some g₁ →
      Method.from_str "get".toList = some g₂ →
      Method.eqMethod g₁ g₂ = true ∧ Method.equiv g₁ "get".toList = true ∧
        Method.equiv g₂ "get".toList = true) := by
  refine ⟨fun a b => eqIgnoreAsciiCase_iff _ _, fun a b => eqIgnoreAsciiCase_iff _ _,
    fun a s => eqIgnoreAsciiCase_iff _ _, fun a s => eqIgnoreAsciiCase_iff _ _,
    fun g₁ g₂ h1 h2 => ?_⟩
  have e1 : g₁ = ⟨"GET".toList⟩ := by
    have hg : Method.from_str "GET".toList = some (⟨"GET".toList⟩ : Method) := by
      decide
    rw [hg] at h1
    injection h1 with h1
    exact h1.symm
  have e2 : g₂ = ⟨"get".toList⟩ := by
    have hg : Method.from_str "get".toList = some (⟨"get".toList⟩ : Method) := by
      decide
    rw [hg] at h2
    injection h2 with h2
    exact h2.symm
  subst e1
  subst e2
  decide

/-- Claim C8 witness: the concrete comparison of the parsed tokens. -/
theorem c8_token_equality_witness :
    Method.eqMethod ⟨"GET".toList⟩ ⟨"get".toList⟩ = true ∧
    Method.equiv ⟨"GET".toList⟩ "get".toList = true ∧
    Method.equiv ⟨"get".toList⟩ "get".toList = true :=
  c8_token_equality.2.2.2.2 ⟨"GET".toList⟩ ⟨"get".toList⟩ (by decide) (by decide)

/-- Claim C9: splitting succeeds exactly when duplicating the underlying
handle succeeds; a clone failure makes `RefinedTcpStream::new` panic through
`.unwrap()` (modelled as `none`) rather than return an error value. -/
theorem c9_new_panics_on_clone_failure :
    ∀ (tryClone : TcpStream → Except IoError TcpStream) (t : TcpStream),
      (RefinedTcpStream.new tryClone (Stream.Http t)).isSome = true ↔
        (tryClone t).isOk = true := by
  intro tryClone t
  cases htc : tryClone t <;>
    simp [RefinedTcpStream.new, htc, Except.isOk, Except.toBool]

/-- Claim C9 witness: a failing clone at a concrete input yields no pair. -/
theorem c9_new_panics_witness :
    (RefinedTcpStream.new
        (fun _ => (Except.error { code := 2 } : Except IoError TcpStream))
        (Stream.Http { conn := 0 })).isSome = true ↔
      ((fun _ => (Except.error { code := 2 } : Except IoError TcpStream))
        ({ conn := 0 } : TcpStream)).isOk = true :=
  c9_new_panics_on_clone_failure
    (fun _ => (Except.error { code := 2 } : Except IoError TcpStream))
    { conn := 0 }

/-- Claim C10: `HeaderField::from_str` is insensitive to surrounding
whitespace, while `Method::from_str` keeps it: `" GET "` parses to a token
whose characters include the spaces, and that token is not equal (even
case-insensitively) to the token parsed from `"GET"`. -/
theorem c10_trim_asymmetry :
    (∀ s : List Char, HeaderField.from_str s = HeaderField.from_str (trim s)) ∧
    Method.from_str " GET ".toList = some ⟨" GET ".toList⟩ ∧
    Method.from_str "GET".toList = some ⟨"GET".toList⟩ ∧
    Method.eqMethod ⟨" GET ".toList⟩ ⟨"GET".toList⟩ = false := by
  refine ⟨fun s => ?_, by decide, by decide, by decide⟩
  unfold HeaderField.from_str
  rw [trim_idem]

/-- Claim C10 witness: the trim-insensitivity at a concrete input. -/
theorem c10_trim_asymmetry_witness :
    HeaderField.from_str "  Host ".toList = HeaderField.from_str (trim "  Host ".toList) :=
  c10_trim_asymmetry.1 "  Host ".toList

end TinyHttp
